import Mathlib

/-!
Verification of the report-generation pipeline of `jx_data_api`
(`app/services/report.py`, `app/core/queue.py`, `app/core/config.py`).

Numbers that Python handles as `int`/`float`/SQL `DECIMAL` are embedded as `ℚ`;
Python's `round(x, d)` (round-half-to-even at `d` decimal digits) is embedded as
`roundTo d`.  SQL `NULL` is embedded as `Option.none`.  A Python function that
can raise is embedded with result type `Except String _`.  The relational store
is external: each embedded pipeline takes the row sets its queries would return
as explicit inputs.
-/

/-- Embedding of Python `round` to an integer: round half to even. -/
def roundHalfEven (x : ℚ) : ℤ :=
  let f : ℤ := ⌊x⌋
  let r : ℚ := x - f
  if r < 1/2 then f
  else if 1/2 < r then f + 1
  else if f % 2 = 0 then f else f + 1

/-- Embedding of Python `round(x, d)`: round half to even at `d` decimal digits. -/
def roundTo (d : ℕ) (x : ℚ) : ℚ := (roundHalfEven (x * 10 ^ d) : ℚ) / 10 ^ d

/-- Embedding of `calc_rate` (report.py lines 76-80) for numeric arguments.
Python's `if denominator and denominator > 0` is truthiness (`≠ 0`) followed by
the sign test, which for a number is equivalent to `0 < denominator`; both
tests are kept to mirror the source. -/
def calc_rate (numerator denominator : ℚ) : ℚ :=
  if denominator ≠ 0 ∧ 0 < denominator then roundTo 1 (numerator / denominator * 100) else 0

/-- Embedding of `calc_avg_price` (report.py lines 83-87) for numeric arguments. -/
def calc_avg_price (total count : ℚ) : ℚ :=
  if count ≠ 0 ∧ 0 < count then roundTo 2 (total / count) else 0

/-- Embedding of `calc_rate` over dynamically-typed arguments (`None` or a
number), tracking the exception behaviour: `None` as denominator is falsy and
yields 0, but a `None` numerator reaching the division raises `TypeError`. -/
def calc_rateO (numerator denominator : Option ℚ) : Except String ℚ :=
  match denominator with
  | none => .ok 0
  | some d =>
    if d = 0 then .ok 0
    else if 0 < d then
      match numerator with
      | none => .error "TypeError"
      | some n => .ok (roundTo 1 (n / d * 100))
    else .ok 0

/-- Embedding of `calc_avg_price` over dynamically-typed arguments. -/
def calc_avg_priceO (total count : Option ℚ) : Except String ℚ :=
  match count with
  | none => .ok 0
  | some c =>
    if c = 0 then .ok 0
    else if 0 < c then
      match total with
      | none => .error "TypeError"
      | some t => .ok (roundTo 2 (t / c))
    else .ok 0

/-- Modelled from the spec (§4.3 ratio fields): a period's rate is
`round(numerator / denominator * 100, 1)` when the denominator is positive and
0 otherwise.  Written from the spec's words, to be compared with the source's
`calc_rate`. -/
def rate_spec (numerator denominator : ℚ) : ℚ :=
  if 0 < denominator then roundTo 1 (numerator / denominator * 100) else 0

/-- Embedding of the inner `calc_rate_diff` (report.py lines 653-656) on the
numeric values carried by the percent strings.  The source formats each rate as
`f"{rate}%"` and parses it back with `float(...rstrip('%'))` (with `'0%'`
mapped to 0); that round-trip is the identity on the value, so the function is
the rounded difference of the two rates. -/
def calc_rate_diff (rate1 rate2 : ℚ) : ℚ := roundTo 1 (rate2 - rate1)

/-- One row of the grouped weekly query (report.py lines 548-580): per-store
sums over a period.  Every summed column can be SQL `NULL` (the `LEFT JOIN`ed
tables may have no matching rows), hence `Option ℚ`. -/
structure WeekRow where
  shop_id : ℕ
  shop_name : Option String
  verify_after_discount : Option ℚ
  exposure_users : Option ℚ
  visit_users : Option ℚ
  order_users : Option ℚ
  order_coupon_count : Option ℚ
  verify_users : Option ℚ
  verify_coupon_count : Option ℚ
  order_sale_amount : Option ℚ
  verify_sale_amount : Option ℚ
  coupon_orders : Option ℚ
  phone_clicks : Option ℚ
  promotion_cost : Option ℚ
  promotion_exposure : Option ℚ
  promotion_clicks : Option ℚ
  promotion_orders : Option ℚ
  view_groupbuy : Option ℚ
  view_phone : Option ℚ
  consult_users : Option ℚ
  address_clicks : Option ℚ
  new_collect : Option ℚ
  new_good_reviews : Option ℚ
  new_reviews : Option ℚ
  checkin_count : Option ℚ
  deriving DecidableEq

/-- Embedding of `safe_get_val` (report.py lines 66-73) at its weekly call
sites: `data` is the row looked up for the store (`None`/`{}` falsy when the
store is absent from the period) and `get` selects the column, whose value may
be `NULL`.  Both the falsy-dict case and the `None`-value case yield the
default 0. -/
def safe_get_val (data : Option WeekRow) (get : WeekRow → Option ℚ) : ℚ :=
  match data with
  | none => 0
  | some row => (get row).getD 0

/-- The per-period numeric values the weekly report extracts with
`safe_get_val` (report.py lines 615-625, 671-680 and their week-2 twins). -/
structure PeriodMetrics where
  verify_discount : ℚ
  exposure : ℚ
  visit : ℚ
  order_users : ℚ
  order_coupons : ℚ
  verify_users : ℚ
  verify_coupons : ℚ
  order_amount : ℚ
  verify_amount : ℚ
  coupon_orders : ℚ
  phone_clicks : ℚ
  promo_cost : ℚ
  promo_exposure : ℚ
  promo_clicks : ℚ
  promo_orders : ℚ
  view_groupbuy : ℚ
  view_phone : ℚ
  consult : ℚ
  address : ℚ
  collect : ℚ
  good_reviews : ℚ
  deriving DecidableEq

/-- Extraction of one period's metrics from its (possibly absent) grouped row,
each field via `safe_get_val` exactly as the source does. -/
def extractMetrics (w : Option WeekRow) : PeriodMetrics where
  verify_discount := safe_get_val w WeekRow.verify_after_discount
  exposure := safe_get_val w WeekRow.exposure_users
  visit := safe_get_val w WeekRow.visit_users
  order_users := safe_get_val w WeekRow.order_users
  order_coupons := safe_get_val w WeekRow.order_coupon_count
  verify_users := safe_get_val w WeekRow.verify_users
  verify_coupons := safe_get_val w WeekRow.verify_coupon_count
  order_amount := safe_get_val w WeekRow.order_sale_amount
  verify_amount := safe_get_val w WeekRow.verify_sale_amount
  coupon_orders := safe_get_val w WeekRow.coupon_orders
  phone_clicks := safe_get_val w WeekRow.phone_clicks
  promo_cost := safe_get_val w WeekRow.promotion_cost
  promo_exposure := safe_get_val w WeekRow.promotion_exposure
  promo_clicks := safe_get_val w WeekRow.promotion_clicks
  promo_orders := safe_get_val w WeekRow.promotion_orders
  view_groupbuy := safe_get_val w WeekRow.view_groupbuy
  view_phone := safe_get_val w WeekRow.view_phone
  consult := safe_get_val w WeekRow.consult_users
  address := safe_get_val w WeekRow.address_clicks
  collect := safe_get_val w WeekRow.new_collect
  good_reviews := safe_get_val w WeekRow.new_good_reviews

/-- The values the weekly report derives per store: both periods' metrics, the
derived per-period rates and average prices, and the difference row values
(report.py lines 614-714). -/
structure ShopComparison where
  m1 : PeriodMetrics
  m2 : PeriodMetrics
  w1_exposure_rate : ℚ
  w1_order_rate : ℚ
  w1_avg_price : ℚ
  w1_click_price : ℚ
  w1_promo_rate : ℚ
  w1_collect_rate : ℚ
  w1_review_rate : ℚ
  w2_exposure_rate : ℚ
  w2_order_rate : ℚ
  w2_avg_price : ℚ
  w2_click_price : ℚ
  w2_promo_rate : ℚ
  w2_collect_rate : ℚ
  w2_review_rate : ℚ
  diff_verify_discount : ℚ
  diff_exposure : ℚ
  diff_visit : ℚ
  diff_exposure_rate : ℚ
  diff_order_users : ℚ
  diff_order_coupons : ℚ
  diff_order_rate : ℚ
  diff_verify_users : ℚ
  diff_verify_coupons : ℚ
  diff_order_amount : ℚ
  diff_verify_amount : ℚ
  diff_coupon_orders : ℚ
  diff_phone_clicks : ℚ
  diff_avg_price : ℚ
  diff_promo_cost : ℚ
  diff_promo_exposure : ℚ
  diff_promo_clicks : ℚ
  diff_click_price : ℚ
  diff_promo_orders : ℚ
  diff_promo_rate : ℚ
  diff_view_groupbuy : ℚ
  diff_view_phone : ℚ
  diff_consult : ℚ
  diff_address : ℚ
  diff_collect : ℚ
  diff_collect_rate : ℚ
  diff_good_reviews : ℚ
  diff_review_rate : ℚ
  deriving DecidableEq

/-- The per-store body of the weekly loop (report.py lines 603-714): extract
both periods with `safe_get_val` defaults, compute each period's rates
independently, then the difference row.  Count diffs are plain differences,
currency-like diffs are rounded to 2 decimals, rate diffs go through
`calc_rate_diff`. -/
def compareShop (w1 w2 : Option WeekRow) : ShopComparison :=
  let m1 := extractMetrics w1
  let m2 := extractMetrics w2
  { m1 := m1
    m2 := m2
    w1_exposure_rate := calc_rate m1.visit m1.exposure
    w1_order_rate := calc_rate m1.order_users m1.visit
    w1_avg_price := calc_avg_price m1.verify_discount m1.verify_users
    w1_click_price := calc_avg_price m1.promo_cost m1.promo_clicks
    w1_promo_rate := calc_rate m1.promo_orders m1.promo_clicks
    w1_collect_rate := calc_rate m1.collect m1.visit
    w1_review_rate := calc_rate m1.good_reviews m1.verify_users
    w2_exposure_rate := calc_rate m2.visit m2.exposure
    w2_order_rate := calc_rate m2.order_users m2.visit
    w2_avg_price := calc_avg_price m2.verify_discount m2.verify_users
    w2_click_price := calc_avg_price m2.promo_cost m2.promo_clicks
    w2_promo_rate := calc_rate m2.promo_orders m2.promo_clicks
    w2_collect_rate := calc_rate m2.collect m2.visit
    w2_review_rate := calc_rate m2.good_reviews m2.verify_users
    diff_verify_discount := roundTo 2 (m2.verify_discount - m1.verify_discount)
    diff_exposure := m2.exposure - m1.exposure
    diff_visit := m2.visit - m1.visit
    diff_exposure_rate := calc_rate_diff (calc_rate m1.visit m1.exposure) (calc_rate m2.visit m2.exposure)
    diff_order_users := m2.order_users - m1.order_users
    diff_order_coupons := m2.order_coupons - m1.order_coupons
    diff_order_rate := calc_rate_diff (calc_rate m1.order_users m1.visit) (calc_rate m2.order_users m2.visit)
    diff_verify_users := m2.verify_users - m1.verify_users
    diff_verify_coupons := m2.verify_coupons - m1.verify_coupons
    diff_order_amount := roundTo 2 (m2.order_amount - m1.order_amount)
    diff_verify_amount := roundTo 2 (m2.verify_amount - m1.verify_amount)
    diff_coupon_orders := m2.coupon_orders - m1.coupon_orders
    diff_phone_clicks := m2.phone_clicks - m1.phone_clicks
    diff_avg_price := roundTo 2 (calc_avg_price m2.verify_discount m2.verify_users - calc_avg_price m1.verify_discount m1.verify_users)
    diff_promo_cost := roundTo 2 (m2.promo_cost - m1.promo_cost)
    diff_promo_exposure := m2.promo_exposure - m1.promo_exposure
    diff_promo_clicks := m2.promo_clicks - m1.promo_clicks
    diff_click_price := roundTo 2 (calc_avg_price m2.promo_cost m2.promo_clicks - calc_avg_price m1.promo_cost m1.promo_clicks)
    diff_promo_orders := m2.promo_orders - m1.promo_orders
    diff_promo_rate := calc_rate_diff (calc_rate m1.promo_orders m1.promo_clicks) (calc_rate m2.promo_orders m2.promo_clicks)
    diff_view_groupbuy := m2.view_groupbuy - m1.view_groupbuy
    diff_view_phone := m2.view_phone - m1.view_phone
    diff_consult := m2.consult - m1.consult
    diff_address := m2.address - m1.address
    diff_collect := m2.collect - m1.collect
    diff_collect_rate := calc_rate_diff (calc_rate m1.collect m1.visit) (calc_rate m2.collect m2.visit)
    diff_good_reviews := m2.good_reviews - m1.good_reviews
    diff_review_rate := calc_rate_diff (calc_rate m1.good_reviews m1.verify_users) (calc_rate m2.good_reviews m2.verify_users) }

/-- Per-store enrichment record built by `get_shop_info_mapping`
(report.py lines 119-146); every field is set with `or ''` so it is a plain
string.  The mapping itself is an input here: it is the result of the
resolver's account query, which is external. -/
structure ShopInfo where
  operator : String
  sales : String
  city : String
  deriving DecidableEq

/-- Lookup in the shop-info mapping keyed by the string form of the store id. -/
def shopInfoLookup (mp : List (String × ShopInfo)) (key : String) : Option ShopInfo :=
  match mp with
  | [] => none
  | (k, v) :: rest => if k = key then some v else shopInfoLookup rest key

/-- Embedding of `shop_info.get(field, '--') or '--'` (report.py lines
609-612): a missing store or an empty string both fall back to the dashes. -/
def infoFieldOrDashes (mp : List (String × ShopInfo)) (sid : ℕ) (get : ShopInfo → String) : String :=
  match shopInfoLookup mp (toString sid) with
  | none => "--"
  | some info => if get info = "" then "--" else get info

/-- Embedding of the dict comprehension `{row['shop_id']: row for row in rows}`
(report.py lines 583, 586): keyed lookup where a later row with the same key
overwrites an earlier one. -/
def dictLookup (rows : List WeekRow) (sid : ℕ) : Option WeekRow :=
  (rows.filter (fun r => r.shop_id = sid)).getLast?

/-- Insertion into a sorted list, ascending. -/
def insertSorted (a : ℕ) : List ℕ → List ℕ
  | [] => [a]
  | b :: rest => if a ≤ b then a :: b :: rest else b :: insertSorted a rest

/-- Embedding of Python `sorted` on the set of store ids. -/
def sortNat (l : List ℕ) : List ℕ := l.foldr insertSorted []

/-- Embedding of `w2.get('shop_name') or w1.get('shop_name', '未知门店')`
(report.py line 606): week 2's name when it is truthy (present and
non-empty), otherwise week 1's name, which is the default only when the store
is absent from week 1 entirely — a present `NULL` name stays `None`. -/
def resolve_shop_name (w1 w2 : Option WeekRow) : Option String :=
  let n2 := w2.bind WeekRow.shop_name
  match n2 with
  | some n => if n ≠ "" then some n else (match w1 with
    | none => some "未知门店"
    | some r => r.shop_name)
  | none => (match w1 with
    | none => some "未知门店"
    | some r => r.shop_name)

/-- One 8-row block of the comparative summary sheet: the leftmost merged
columns and the compared values (report.py lines 603-741). -/
structure ShopBlock where
  seq : ℕ
  shop_id : ℕ
  operator : String
  city : String
  sales : String
  shop_name : Option String
  cmp : ShopComparison
  deriving DecidableEq

/-- Data content of a comparative report document: the period labels of the
header column and one block per store. -/
structure ReportData where
  period1_label : String
  period2_label : String
  blocks : List ShopBlock
  deriving DecidableEq

/-- Embedding of the date label `f"{start:%Y.%m.%d}-{end:%Y.%m.%d}"`
(report.py lines 597-598); on the `YYYY-MM-DD` inputs the pipeline receives,
`strptime` then `strftime` replaces the dashes by dots. -/
def periodLabel (startDate endDate : String) : String :=
  startDate.replace "-" "." ++ "-" ++ endDate.replace "-" "."

/-- Embedding of the data computation of `generate_weekly_report`
(report.py lines 531-789).  The two grouped row sets are the results of the
period queries; the shop-info mapping is the resolver's result.  Note the
period queries have no store filter at all: every store with rows in either
range is included.  Raises `ValueError("没有找到数据")` exactly when the union
of the two key sets is empty; workbook styling and file output are elided. -/
def generate_weekly_result (week1_start week1_end week2_start week2_end : String)
    (shop_mapping : List (String × ShopInfo))
    (week1_rows week2_rows : List WeekRow) : Except String ReportData :=
  let all_shop_ids := (week1_rows.map WeekRow.shop_id ++ week2_rows.map WeekRow.shop_id).dedup
  if all_shop_ids = [] then .error "没有找到数据"
  else .ok
    { period1_label := periodLabel week1_start week1_end
      period2_label := periodLabel week2_start week2_end
      blocks := (sortNat all_shop_ids).enum.map (fun p =>
        let sid := p.2
        let w1 := dictLookup week1_rows sid
        let w2 := dictLookup week2_rows sid
        { seq := p.1 + 1
          shop_id := sid
          operator := infoFieldOrDashes shop_mapping sid ShopInfo.operator
          city := infoFieldOrDashes shop_mapping sid ShopInfo.city
          sales := infoFieldOrDashes shop_mapping sid ShopInfo.sales
          shop_name := resolve_shop_name w1 w2
          cmp := compareShop w1 w2 }) }

/-- Embedding of `generate_monthly_report` (report.py lines 793-804): a direct
delegation to the weekly pipeline. -/
def generate_monthly_result (month1_start month1_end month2_start month2_end : String)
    (shop_mapping : List (String × ShopInfo))
    (month1_rows month2_rows : List WeekRow) : Except String ReportData :=
  generate_weekly_result month1_start month1_end month2_start month2_end shop_mapping month1_rows month2_rows

/-- Embedding of `generate_custom_report` (report.py lines 808-819): it
accepts `shop_ids` but passes only the dates and accounts to the weekly
pipeline — the explicit store list is dropped. -/
def generate_custom_result (period1_start period1_end period2_start period2_end : String)
    (shop_ids : Option (List String))
    (shop_mapping : List (String × ShopInfo))
    (period1_rows period2_rows : List WeekRow) : Except String ReportData :=
  generate_weekly_result period1_start period1_end period2_start period2_end shop_mapping period1_rows period2_rows

/-- Store ids appearing in a generated comparative report, in sheet order. -/
def reportShopIds (r : Except String ReportData) : Option (List ℕ) :=
  match r with
  | .ok d => some (d.blocks.map ShopBlock.shop_id)
  | .error _ => none

/-- A grouped row with the given shop id, every summed column `NULL`.
Used as a concrete test vector. -/
def blankRow (sid : ℕ) : WeekRow :=
  { shop_id := sid, shop_name := none, verify_after_discount := none,
    exposure_users := none, visit_users := none, order_users := none,
    order_coupon_count := none, verify_users := none, verify_coupon_count := none,
    order_sale_amount := none, verify_sale_amount := none, coupon_orders := none,
    phone_clicks := none, promotion_cost := none, promotion_exposure := none,
    promotion_clicks := none, promotion_orders := none, view_groupbuy := none,
    view_phone := none, consult_users := none, address_clicks := none,
    new_collect := none, new_good_reviews := none, new_reviews := none,
    checkin_count := none }

/-- One element of a decoded stores blob (report.py lines 284-289): either not
a JSON object, or an object whose `shop_id` stringifies to the given value
(the empty string when the key is missing or empty). -/
inductive StoreItem where
  | notDict
  | entry (shop_id : String)
  deriving DecidableEq

/-- Parse outcome of an account's `stores_json` blob as classified by the
source (report.py lines 276-291): SQL `NULL` / empty (falsy), text that fails
`json.loads` or decodes to a non-list (the swallowed
`JSONDecodeError`/`TypeError` and the failed `isinstance` check), or a JSON
list of items. -/
inductive StoresBlob where
  | null
  | badText
  | items (l : List StoreItem)
  deriving DecidableEq

/-- Store ids contributed by one account's stores blob (report.py lines
276-291): a falsy or malformed blob contributes nothing — no exception
escapes — and only non-empty `shop_id` strings are kept. -/
def parse_stores_blob (b : StoresBlob) : List String :=
  match b with
  | .null => []
  | .badText => []
  | .items l => l.filterMap (fun it =>
      match it with
      | .notDict => none
      | .entry sid => if sid = "" then none else some sid)

/-- One row of the account query `SELECT stores_json FROM platform_accounts
WHERE account IN (...)` (report.py lines 268-272). -/
structure AccountRow where
  stores_json : StoresBlob
  deriving DecidableEq

/-- One row of the daily report query, reduced to the key the store filter and
the emptiness check inspect; the remaining selected columns feed only the
rendering. -/
structure DailyRow where
  shop_id : String
  deriving DecidableEq

/-- Embedding of the `shop_ids_filter` resolution in `generate_daily_report`
(report.py lines 262-294): `None` when no accounts are given (Python
truthiness: `None` or an empty list), otherwise the concatenation of every
returned account row's parsed stores blob — possibly the empty list. -/
def daily_shop_ids_filter (accounts : Option (List String))
    (account_rows : List AccountRow) : Option (List String) :=
  match accounts with
  | none => none
  | some accs =>
    if accs = [] then none
    else some (account_rows.flatMap (fun a => parse_stores_blob a.stores_json))

/-- Embedding of the daily query's store restriction (report.py lines
324-328): the `IN` clause is appended only when `shop_ids_filter` is truthy,
so both `None` and the empty list leave the full day's row set unfiltered. -/
def daily_fetch_rows (all_rows : List DailyRow) (flt : Option (List String)) : List DailyRow :=
  match flt with
  | none => all_rows
  | some ids => if ids = [] then all_rows else all_rows.filter (fun r => r.shop_id ∈ ids)

/-- Embedding of the data-acquisition part of `generate_daily_report`
(report.py lines 250-336): resolve the account filter, fetch the day's rows,
and raise `ValueError(f"日期 {report_date} 没有数据")` exactly when that row
set is empty.  `all_rows` is the unfiltered result the day's query would
return; rendering is elided. -/
def generate_daily_result (report_date : String) (accounts : Option (List String))
    (account_rows : List AccountRow) (all_rows : List DailyRow) : Except String (List DailyRow) :=
  let flt := daily_shop_ids_filter accounts account_rows
  let rows := daily_fetch_rows all_rows flt
  if rows = [] then .error ("日期 " ++ report_date ++ " 没有数据")
  else .ok rows

/-- Embedding of the summary-sheet rank cell (report.py lines 386-387):
`f"第{rank}名" if rank and rank < 100 else ("大于100名" if rank and
rank >= 100 else "--")`.  Python truthiness makes a zero rank fall through to
the dash together with `None`. -/
def summary_rank_str (rank : Option ℤ) : String :=
  match rank with
  | none => "--"
  | some n =>
    if n ≠ 0 ∧ n < 100 then "第" ++ toString n ++ "名"
    else if n ≠ 0 ∧ 100 ≤ n then "大于100名"
    else "--"

/-- Embedding of the detail-sheet rank cell (report.py lines 437-438):
`f"{region}：第{rank}名" if rank and rank < 100 else f"{region}：大于100名"`
— this display site has no dash branch at all. -/
def detail_rank_display (region_display : String) (rank : Option ℤ) : String :=
  match rank with
  | none => region_display ++ "：大于100名"
  | some n =>
    if n ≠ 0 ∧ n < 100 then region_display ++ "：第" ++ toString n ++ "名"
    else region_display ++ "：大于100名"

/-- The characters Excel forbids in sheet names, as listed by
`clean_sheet_name` (report.py line 45). -/
def illegal_chars : List Char := ['\\', '/', '*', '?', ':', '[', ']']

/-- Embedding of `clean_sheet_name` (report.py lines 41-50) on the character
list of the name: falsy input gives "Sheet", otherwise the illegal characters
are removed, the result is truncated to 31 characters, and an emptied name
falls back to "Sheet". -/
def clean_sheet_name (name : List Char) : List Char :=
  if name = [] then "Sheet".toList
  else
    let cleaned := (name.filter (fun c => !(illegal_chars.contains c))).take 31
    if cleaned = [] then "Sheet".toList else cleaned

/-- Decimal digit characters of a natural number, by explicit fuel so the
kernel can evaluate it; embeds Python `str(counter)`. -/
def natDigitsAux : ℕ → ℕ → List Char → List Char
  | 0, _, acc => acc
  | fuel+1, n, acc =>
    if n < 10 then Char.ofNat (48 + n) :: acc
    else natDigitsAux fuel (n / 10) (Char.ofNat (48 + n % 10) :: acc)

/-- Decimal digit characters of a natural number. -/
def natDigits (n : ℕ) : List Char := natDigitsAux (n + 1) n []

/-- Lookup of a name's collision counter in `sheet_names_used`. -/
def lookupCount (used : List (List Char × ℕ)) (key : List Char) : Option ℕ :=
  match used with
  | [] => none
  | (k, c) :: rest => if k = key then some c else lookupCount rest key

/-- Increment of a name's collision counter, embedding
`sheet_names_used[sheet_name] += 1`. -/
def bumpCount (used : List (List Char × ℕ)) (key : List Char) : List (List Char × ℕ) :=
  match used with
  | [] => []
  | (k, c) :: rest => if k = key then (k, c + 1) :: rest else (k, c) :: bumpCount rest key

/-- The suffixed name assigned on a collision (report.py line 408):
truncation to 28 characters, an underscore, and the new counter value. -/
def sheet_suffix_name (sn : List Char) (counter : ℕ) : List Char :=
  sn.take 28 ++ '_' :: natDigits counter

/-- One iteration of the sheet-name assignment (report.py lines 405-410):
clean the store name; on a collision bump the counter and emit the truncated,
suffixed name (which itself is not recorded in `sheet_names_used`); otherwise
record the clean name with counter 1 and emit it. -/
def assign_step (used : List (List Char × ℕ)) (raw : List Char) :
    List (List Char × ℕ) × List Char :=
  let sn := clean_sheet_name raw
  match lookupCount used sn with
  | some c => (bumpCount used sn, sheet_suffix_name sn (c + 1))
  | none => ((sn, 1) :: used, sn)

/-- Sheet-name assignment over the stores of one workbook, threading
`sheet_names_used`. -/
def assign_names_go (used : List (List Char × ℕ)) : List (List Char) → List (List Char)
  | [] => []
  | raw :: rest => (assign_step used raw).2 :: assign_names_go (assign_step used raw).1 rest

/-- Detail-sheet names assigned for a sequence of store display names, in
order, starting from an empty `sheet_names_used` (report.py lines 368,
404-410). -/
def assign_sheet_names (names : List (List Char)) : List (List Char) :=
  assign_names_go [] names

theorem calc_rate_eq_rate_spec (n d : ℚ) : calc_rate n d = rate_spec n d := by
  unfold calc_rate rate_spec
  by_cases h : 0 < d
  · rw [if_pos ⟨h.ne', h⟩, if_pos h]
  · rw [if_neg (fun hc => h hc.2), if_neg h]

/-- C1: for every pair of per-store aggregated records and every ratio field
(exposure→visit conversion, visit→order conversion, promotion-click order
conversion, favorite rate, review rate), the comparative report's rate delta
equals `round(rate(B) - rate(A), 1)` where each period's rate is independently
`round(num/den*100, 1)` (0 on a non-positive denominator); and it differs from
the pooled formula `round((numB-numA)/(denB-denA)*100, 1)`, witnessed at
period A = 10/40 and period B = 30/50. -/
theorem ratio_deltas_recomputed_independently :
    (∀ w1 w2 : Option WeekRow,
      (compareShop w1 w2).diff_exposure_rate =
        roundTo 1 (rate_spec (extractMetrics w2).visit (extractMetrics w2).exposure -
          rate_spec (extractMetrics w1).visit (extractMetrics w1).exposure) ∧
      (compareShop w1 w2).diff_order_rate =
        roundTo 1 (rate_spec (extractMetrics w2).order_users (extractMetrics w2).visit -
          rate_spec (extractMetrics w1).order_users (extractMetrics w1).visit) ∧
      (compareShop w1 w2).diff_promo_rate =
        roundTo 1 (rate_spec (extractMetrics w2).promo_orders (extractMetrics w2).promo_clicks -
          rate_spec (extractMetrics w1).promo_orders (extractMetrics w1).promo_clicks) ∧
      (compareShop w1 w2).diff_collect_rate =
        roundTo 1 (rate_spec (extractMetrics w2).collect (extractMetrics w2).visit -
          rate_spec (extractMetrics w1).collect (extractMetrics w1).visit) ∧
      (compareShop w1 w2).diff_review_rate =
        roundTo 1 (rate_spec (extractMetrics w2).good_reviews (extractMetrics w2).verify_users -
          rate_spec (extractMetrics w1).good_reviews (extractMetrics w1).verify_users)) ∧
    calc_rate_diff (calc_rate 10 40) (calc_rate 30 50) ≠ roundTo 1 ((30 - 10) / (50 - 40) * 100) := by
  constructor
  · intro w1 w2
    refine ⟨?_, ?_, ?_, ?_, ?_⟩ <;>
      simp [compareShop, calc_rate_diff, calc_rate_eq_rate_spec]
  · have h1 : calc_rate 10 40 = 25 := by
      rw [calc_rate, if_pos (by norm_num)]
      norm_num [roundTo, roundHalfEven]
    have h2 : calc_rate 30 50 = 60 := by
      rw [calc_rate, if_pos (by norm_num)]
      norm_num [roundTo, roundHalfEven]
    rw [h1, h2, calc_rate_diff]
    norm_num [roundTo, roundHalfEven]

/-- C9: the monthly report function and the custom report function produce
exactly the result of the weekly (two-period comparative) pipeline invoked with
the caller-supplied ranges, for all inputs — including every value of the
custom report's `shop_ids` argument — so no internal branching distinguishes
the three comparative report kinds. -/
theorem monthly_and_custom_are_weekly :
    (∀ (a b c d : String) (mp : List (String × ShopInfo)) (r1 r2 : List WeekRow),
      generate_monthly_result a b c d mp r1 r2 = generate_weekly_result a b c d mp r1 r2) ∧
    (∀ (a b c d : String) (sids : Option (List String)) (mp : List (String × ShopInfo))
      (r1 r2 : List WeekRow),
      generate_custom_result a b c d sids mp r1 r2 = generate_weekly_result a b c d mp r1 r2) :=
  ⟨fun _ _ _ _ _ _ _ => rfl, fun _ _ _ _ _ _ _ _ => rfl⟩

/-- C10 counterexample: the claim says the ratio helpers return a number
without raising for every numerator and denominator value including `None`,
but `calc_rate(None, 5)` takes the division branch (the denominator 5 is
truthy and positive) and raises `TypeError` on `None / 5`. -/
theorem calc_rate_none_numerator_raises :
    calc_rateO none (some 5) = .error "TypeError" ∧
    calc_avg_priceO none (some 5) = .error "TypeError" := by
  constructor
  · rw [calc_rateO]
    rw [if_neg (by norm_num), if_pos (by norm_num)]
  · rw [calc_avg_priceO]
    rw [if_neg (by norm_num), if_pos (by norm_num)]

/-- C10 amended: for every numeric numerator and every denominator value
(including `None`, zero, and negative denominators) `calc_rate` and
`calc_avg_price` return a number without raising, the division branch is taken
only when the denominator is strictly positive, and in every other case the
result is exactly 0.  (A `None` numerator with a positive denominator raises
`TypeError` instead — see the counterexample.) -/
theorem calc_helpers_total_on_numeric_numerator :
    ∀ (n : ℚ) (d : Option ℚ),
      calc_rateO (some n) d = .ok (d.elim 0 (fun dv => if 0 < dv then roundTo 1 (n / dv * 100) else 0)) ∧
      calc_avg_priceO (some n) d = .ok (d.elim 0 (fun dv => if 0 < dv then roundTo 2 (n / dv) else 0)) := by
  intro n d
  cases d with
  | none => exact ⟨rfl, rfl⟩
  | some dv =>
    constructor
    · rw [calc_rateO]
      by_cases h0 : dv = 0
      · subst h0
        rw [if_pos rfl]
        simp
      · rw [if_neg h0]
        by_cases hp : 0 < dv
        · rw [if_pos hp]
          simp [hp]
        · rw [if_neg hp]
          simp [hp]
    · rw [calc_avg_priceO]
      by_cases h0 : dv = 0
      · subst h0
        rw [if_pos rfl]
        simp
      · rw [if_neg h0]
        by_cases hp : 0 < dv
        · rw [if_pos hp]
          simp [hp]
        · rw [if_neg hp]
          simp [hp]

/-- C2: on a daily request whose only account has a malformed stores blob, the
resolution indeed yields zero stores without raising, but because the empty
resolved list is falsy, `generate_daily_report` appends no `IN` clause and
falls back to the full store population: with an unrelated store present for
the date, the report succeeds over that store instead of raising
`NoDataError`.  This contradicts the documented purpose of the accounts
filter (and spec Scenario D). -/
theorem daily_empty_filter_falls_back_to_full_population :
    parse_stores_blob .badText = [] ∧
    daily_shop_ids_filter (some ["acctX"]) [⟨StoresBlob.badText⟩] = some [] ∧
    generate_daily_result "2025-12-18" (some ["acctX"]) [⟨StoresBlob.badText⟩]
      [⟨"999"⟩] = .ok [⟨"999"⟩] := by
  refine ⟨rfl, rfl, rfl⟩

/-- C3: the custom report drops its explicit `shop_ids` argument: with
`shop_ids = ["1"]` and period data for stores 1 and 2, the generated report
still contains both stores, contradicting the restriction stated by the claim
and by the function's own documentation. -/
theorem custom_report_ignores_shop_ids :
    reportShopIds (generate_custom_result "2025-12-01" "2025-12-07" "2025-12-08" "2025-12-14"
      (some ["1"]) [] [blankRow 1, blankRow 2] []) = some [1, 2] := by
  decide

/-- C6: the daily pipeline raises `NoDataError` exactly when its (possibly
filtered) result set is empty, and the two-period pipeline raises it exactly
when both periods together contain no store rows — it succeeds whenever at
least one period has at least one row, zero-filling the other period. -/
theorem no_data_error_exactly_on_empty :
    (∀ (d : String) (accounts : Option (List String)) (account_rows : List AccountRow)
      (all_rows : List DailyRow),
      (generate_daily_result d accounts account_rows all_rows).isOk = false ↔
        daily_fetch_rows all_rows (daily_shop_ids_filter accounts account_rows) = []) ∧
    (∀ (s1 e1 s2 e2 : String) (mp : List (String × ShopInfo)) (rows1 rows2 : List WeekRow),
      (generate_weekly_result s1 e1 s2 e2 mp rows1 rows2).isOk = false ↔
        (rows1 = [] ∧ rows2 = [])) := by
  constructor
  · intro d accounts account_rows all_rows
    by_cases h : daily_fetch_rows all_rows (daily_shop_ids_filter accounts account_rows) = []
    · simp [generate_daily_result, h, Except.isOk, Except.toBool]
    · simp [generate_daily_result, h, Except.isOk, Except.toBool]
  · intro s1 e1 s2 e2 mp rows1 rows2
    by_cases h : (rows1.map WeekRow.shop_id ++ rows2.map WeekRow.shop_id).dedup = []
    · have h' : rows1 = [] ∧ rows2 = [] := by
        rw [List.dedup_eq_nil, List.append_eq_nil, List.map_eq_nil_iff, List.map_eq_nil_iff] at h
        exact h
      simp [generate_weekly_result, h, h', Except.isOk, Except.toBool]
    · have h' : ¬(rows1 = [] ∧ rows2 = []) := by
        intro hc
        exact h (by simp [hc.1, hc.2])
      simp [generate_weekly_result, h, h', Except.isOk, Except.toBool]

/-- C7 counterexample: the claim says an absent rank renders as a placeholder
dash at every display site and any rank below 100 renders as "rank N", but the
detail sheet renders an absent rank as "greater than rank 100" (no dash
anywhere in the cell), and the summary renders a zero rank — which is below
100 — as the dash. -/
theorem rank_rendering_counterexample :
    detail_rank_display "城市A" none = "城市A：大于100名" ∧
    '-' ∉ (detail_rank_display "城市A" none).toList ∧
    summary_rank_str (some 0) = "--" ∧
    summary_rank_str (some 0) ≠ "第0名" := by
  refine ⟨by decide, by decide, by decide, by decide⟩

/-- C7 amended: in the summary sheet a present non-zero rank below 100 renders
as "第N名", a present non-zero rank of 100 or more renders as "大于100名", and
an absent or zero rank renders as the placeholder dash; in the per-store
detail sheet a present non-zero rank below 100 renders as "第N名" and every
other value — including an absent or zero rank — renders as "大于100名".
Rank fields are never diffed (the comparative pipeline's row type carries no
rank column). -/
theorem rank_rendering_characterization (region : String) :
    (∀ n : ℤ, n ≠ 0 → n < 100 →
      summary_rank_str (some n) = "第" ++ toString n ++ "名" ∧
      detail_rank_display region (some n) = region ++ "：第" ++ toString n ++ "名") ∧
    (∀ n : ℤ, n ≠ 0 → 100 ≤ n →
      summary_rank_str (some n) = "大于100名" ∧
      detail_rank_display region (some n) = region ++ "：大于100名") ∧
    summary_rank_str none = "--" ∧
    summary_rank_str (some 0) = "--" ∧
    detail_rank_display region none = region ++ "：大于100名" ∧
    detail_rank_display region (some 0) = region ++ "：大于100名" := by
  refine ⟨?_, ?_, rfl, ?_, rfl, ?_⟩
  · intro n hn h100
    constructor
    · rw [summary_rank_str, if_pos ⟨hn, h100⟩]
    · rw [detail_rank_display, if_pos ⟨hn, h100⟩]
  · intro n hn h100
    constructor
    · rw [summary_rank_str, if_neg (fun hc => absurd h100 (not_le.mpr hc.2)), if_pos ⟨hn, h100⟩]
    · rw [detail_rank_display, if_neg (fun hc => absurd h100 (not_le.mpr hc.2))]
  · rw [summary_rank_str, if_neg (fun hc => hc.1 rfl), if_neg (fun hc => hc.1 rfl)]
  · rw [detail_rank_display, if_neg (fun hc => hc.1 rfl)]

/-- Witness for the rank-rendering characterization at concrete ranks 5, 120,
zero and absent. -/
theorem rank_rendering_characterization_witness :
    summary_rank_str (some 5) = "第5名" ∧
    summary_rank_str (some 120) = "大于100名" ∧
    summary_rank_str none = "--" ∧
    detail_rank_display "商圈" none = "商圈：大于100名" := by
  refine ⟨?_, ?_, ?_, ?_⟩
  · exact (((rank_rendering_characterization "商圈").1 5 (by decide) (by decide)).1)
  · exact (((rank_rendering_characterization "商圈").2.1 120 (by decide) (by decide)).1)
  · exact (rank_rendering_characterization "商圈").2.2.1
  · exact (rank_rendering_characterization "商圈").2.2.2.2.1

/-- C4: in a comparative report, a store present in exactly one period gets an
all-zero aggregate for the missing period, so every additive delta is the
negation (store only in period A) or the value (store only in period B) of the
present period's field — with the source's 2-decimal rounding on the
currency-like deltas; in particular `order_users = 20` in period A only gives
`diff_order_users = -20`. -/
theorem missing_period_is_zero_filled :
    extractMetrics none = ⟨0, 0, 0, 0, 0, 0, 0, 0, 0, 0, 0, 0, 0, 0, 0, 0, 0, 0, 0, 0, 0⟩ ∧
    (∀ r : WeekRow,
      (compareShop (some r) none).diff_exposure = -(extractMetrics (some r)).exposure ∧
      (compareShop (some r) none).diff_visit = -(extractMetrics (some r)).visit ∧
      (compareShop (some r) none).diff_order_users = -(extractMetrics (some r)).order_users ∧
      (compareShop (some r) none).diff_order_coupons = -(extractMetrics (some r)).order_coupons ∧
      (compareShop (some r) none).diff_verify_users = -(extractMetrics (some r)).verify_users ∧
      (compareShop (some r) none).diff_verify_coupons = -(extractMetrics (some r)).verify_coupons ∧
      (compareShop (some r) none).diff_coupon_orders = -(extractMetrics (some r)).coupon_orders ∧
      (compareShop (some r) none).diff_phone_clicks = -(extractMetrics (some r)).phone_clicks ∧
      (compareShop (some r) none).diff_promo_exposure = -(extractMetrics (some r)).promo_exposure ∧
      (compareShop (some r) none).diff_promo_clicks = -(extractMetrics (some r)).promo_clicks ∧
      (compareShop (some r) none).diff_promo_orders = -(extractMetrics (some r)).promo_orders ∧
      (compareShop (some r) none).diff_view_groupbuy = -(extractMetrics (some r)).view_groupbuy ∧
      (compareShop (some r) none).diff_view_phone = -(extractMetrics (some r)).view_phone ∧
      (compareShop (some r) none).diff_consult = -(extractMetrics (some r)).consult ∧
      (compareShop (some r) none).diff_address = -(extractMetrics (some r)).address ∧
      (compareShop (some r) none).diff_collect = -(extractMetrics (some r)).collect ∧
      (compareShop (some r) none).diff_good_reviews = -(extractMetrics (some r)).good_reviews ∧
      (compareShop (some r) none).diff_verify_discount = roundTo 2 (-(extractMetrics (some r)).verify_discount) ∧
      (compareShop (some r) none).diff_order_amount = roundTo 2 (-(extractMetrics (some r)).order_amount) ∧
      (compareShop (some r) none).diff_verify_amount = roundTo 2 (-(extractMetrics (some r)).verify_amount) ∧
      (compareShop (some r) none).diff_promo_cost = roundTo 2 (-(extractMetrics (some r)).promo_cost)) ∧
    (∀ r : WeekRow,
      (compareShop none (some r)).diff_exposure = (extractMetrics (some r)).exposure ∧
      (compareShop none (some r)).diff_visit = (extractMetrics (some r)).visit ∧
      (compareShop none (some r)).diff_order_users = (extractMetrics (some r)).order_users ∧
      (compareShop none (some r)).diff_order_coupons = (extractMetrics (some r)).order_coupons ∧
      (compareShop none (some r)).diff_verify_users = (extractMetrics (some r)).verify_users ∧
      (compareShop none (some r)).diff_verify_coupons = (extractMetrics (some r)).verify_coupons ∧
      (compareShop none (some r)).diff_coupon_orders = (extractMetrics (some r)).coupon_orders ∧
      (compareShop none (some r)).diff_phone_clicks = (extractMetrics (some r)).phone_clicks ∧
      (compareShop none (some r)).diff_promo_exposure = (extractMetrics (some r)).promo_exposure ∧
      (compareShop none (some r)).diff_promo_clicks = (extractMetrics (some r)).promo_clicks ∧
      (compareShop none (some r)).diff_promo_orders = (extractMetrics (some r)).promo_orders ∧
      (compareShop none (some r)).diff_view_groupbuy = (extractMetrics (some r)).view_groupbuy ∧
      (compareShop none (some r)).diff_view_phone = (extractMetrics (some r)).view_phone ∧
      (compareShop none (some r)).diff_consult = (extractMetrics (some r)).consult ∧
      (compareShop none (some r)).diff_address = (extractMetrics (some r)).address ∧
      (compareShop none (some r)).diff_collect = (extractMetrics (some r)).collect ∧
      (compareShop none (some r)).diff_good_reviews = (extractMetrics (some r)).good_reviews ∧
      (compareShop none (some r)).diff_verify_discount = roundTo 2 ((extractMetrics (some r)).verify_discount) ∧
      (compareShop none (some r)).diff_order_amount = roundTo 2 ((extractMetrics (some r)).order_amount) ∧
      (compareShop none (some r)).diff_verify_amount = roundTo 2 ((extractMetrics (some r)).verify_amount) ∧
      (compareShop none (some r)).diff_promo_cost = roundTo 2 ((extractMetrics (some r)).promo_cost)) ∧
    (compareShop (some { blankRow 7 with order_users := some 20 }) none).diff_order_users = -20 := by
  refine ⟨rfl, fun r => ?_, fun r => ?_, ?_⟩
  · refine ⟨?_, ?_, ?_, ?_, ?_, ?_, ?_, ?_, ?_, ?_, ?_, ?_, ?_, ?_, ?_, ?_, ?_, ?_, ?_, ?_, ?_⟩ <;>
      simp [compareShop, extractMetrics, safe_get_val, zero_sub]
  · refine ⟨?_, ?_, ?_, ?_, ?_, ?_, ?_, ?_, ?_, ?_, ?_, ?_, ?_, ?_, ?_, ?_, ?_, ?_, ?_, ?_, ?_⟩ <;>
      simp [compareShop, extractMetrics, safe_get_val, sub_zero]
  · simp only [compareShop, extractMetrics, safe_get_val, blankRow]
    norm_num

theorem clean_sheet_name_ne_nil (r : List Char) : clean_sheet_name r ≠ [] := by
  simp only [clean_sheet_name]
  split
  · decide
  · split
    next => decide
    next h2 => exact h2

theorem mem_clean_sheet_name_not_illegal (r : List Char) :
    ∀ c ∈ clean_sheet_name r, c ∉ illegal_chars := by
  have hS : ∀ c ∈ "Sheet".toList, c ∉ illegal_chars := by decide
  intro c hc
  simp only [clean_sheet_name] at hc
  split at hc
  · exact hS c hc
  · split at hc
    · exact hS c hc
    · obtain ⟨-, hp⟩ := List.mem_filter.1 (List.mem_of_mem_take hc)
      simpa using hp

theorem clean_sheet_name_length_le (r : List Char) : (clean_sheet_name r).length ≤ 31 := by
  simp only [clean_sheet_name]
  split
  · decide
  · split
    · decide
    · simp [List.length_take]

theorem mem_natDigitsAux (fuel : ℕ) :
    ∀ (n : ℕ) (acc : List Char) (c : Char), c ∈ natDigitsAux fuel n acc →
      (∃ d, d < 10 ∧ c = Char.ofNat (48 + d)) ∨ c ∈ acc := by
  induction fuel with
  | zero => intro n acc c hc; exact Or.inr hc
  | succ f ih =>
    intro n acc c hc
    simp only [natDigitsAux] at hc
    by_cases h : n < 10
    · rw [if_pos h] at hc
      rcases List.mem_cons.1 hc with rfl | hc
      · exact Or.inl ⟨n, h, rfl⟩
      · exact Or.inr hc
    · rw [if_neg h] at hc
      rcases ih (n / 10) (Char.ofNat (48 + n % 10) :: acc) c hc with h1 | h1
      · exact Or.inl h1
      · rcases List.mem_cons.1 h1 with rfl | h2
        · exact Or.inl ⟨n % 10, Nat.mod_lt _ (by norm_num), rfl⟩
        · exact Or.inr h2

theorem mem_natDigits_not_illegal (n : ℕ) : ∀ c ∈ natDigits n, c ∉ illegal_chars := by
  intro c hc
  rcases mem_natDigitsAux (n + 1) n [] c hc with ⟨d, hd, rfl⟩ | h
  · have hall : ∀ d : ℕ, d < 10 → Char.ofNat (48 + d) ∉ illegal_chars := by decide
    exact hall d hd
  · simp at h

theorem sheet_suffix_name_ne_nil (sn : List Char) (counter : ℕ) :
    sheet_suffix_name sn counter ≠ [] := by
  simp [sheet_suffix_name]

theorem mem_sheet_suffix_name_not_illegal (sn : List Char) (counter : ℕ) (c : Char)
    (hsn : ∀ x ∈ sn, x ∉ illegal_chars) :
    c ∈ sheet_suffix_name sn counter → c ∉ illegal_chars := by
  intro hc
  rcases List.mem_append.1 hc with h | h
  · exact hsn c (List.mem_of_mem_take h)
  · rcases List.mem_cons.1 h with rfl | h2
    · decide
    · exact mem_natDigits_not_illegal counter c h2

theorem assign_step_snd_wellformed (used : List (List Char × ℕ)) (raw : List Char) :
    (assign_step used raw).2 ≠ [] ∧ ∀ c ∈ (assign_step used raw).2, c ∉ illegal_chars := by
  cases h : lookupCount used (clean_sheet_name raw) with
  | none =>
    simp only [assign_step, h]
    exact ⟨clean_sheet_name_ne_nil raw, mem_clean_sheet_name_not_illegal raw⟩
  | some c =>
    simp only [assign_step, h]
    refine ⟨sheet_suffix_name_ne_nil _ _, fun ch hch => ?_⟩
    exact mem_sheet_suffix_name_not_illegal (clean_sheet_name raw) (c + 1) ch
      (mem_clean_sheet_name_not_illegal raw) hch

theorem assign_names_go_wellformed (names : List (List Char)) :
    ∀ (used : List (List Char × ℕ)), ∀ s ∈ assign_names_go used names,
      s ≠ [] ∧ ∀ c ∈ s, c ∉ illegal_chars := by
  induction names with
  | nil => intro used s hs; simp [assign_names_go] at hs
  | cons raw rest ih =>
    intro used s hs
    rw [assign_names_go] at hs
    rcases List.mem_cons.1 hs with rfl | hs
    · exact assign_step_snd_wellformed used raw
    · exact ih (assign_step used raw).1 s hs

theorem assign_names_go_of_fresh (names : List (List Char)) :
    ∀ used : List (List Char × ℕ),
      (names.map clean_sheet_name).Nodup →
      (∀ nm ∈ names, lookupCount used (clean_sheet_name nm) = none) →
      assign_names_go used names = names.map clean_sheet_name := by
  induction names with
  | nil => intro used _ _; rfl
  | cons raw rest ih =>
    intro used hnd hfresh
    have h0 : lookupCount used (clean_sheet_name raw) = none :=
      hfresh raw (List.mem_cons_self _ _)
    have hstep : assign_step used raw = ((clean_sheet_name raw, 1) :: used, clean_sheet_name raw) := by
      simp only [assign_step, h0]
    rw [assign_names_go, List.map_cons, hstep]
    congr 1
    apply ih
    · exact hnd.of_cons
    · intro nm hnm
      have hne : clean_sheet_name raw ≠ clean_sheet_name nm := by
        intro he
        exact (List.nodup_cons.1 hnd).1 (he ▸ List.mem_map_of_mem _ hnm)
      rw [lookupCount, if_neg hne]
      exact hfresh nm (List.mem_cons_of_mem _ hnm)

/-- C5 amended: every assigned detail-sheet name is non-empty and free of the
illegal characters, and a collision with an already-recorded name is resolved
by truncating to 28 characters and appending an underscore and the incremented
counter; when the cleaned display names are pairwise distinct the assigned
names are exactly the cleaned names, pairwise distinct and at most 31
characters.  Unconditional uniqueness and the unconditional 31-character bound
fail (see the counterexample): a suffixed name is not recorded in
`sheet_names_used` and can collide with a cleaned name, and a counter of 100
or more overflows 31 characters. -/
theorem sheet_names_wellformed (names : List (List Char)) :
    (∀ s ∈ assign_sheet_names names, s ≠ [] ∧ ∀ c ∈ s, c ∉ illegal_chars) ∧
    (∀ raw : List Char, assign_sheet_names [raw, raw] =
      [clean_sheet_name raw, sheet_suffix_name (clean_sheet_name raw) 2]) ∧
    ((names.map clean_sheet_name).Nodup →
      assign_sheet_names names = names.map clean_sheet_name ∧
      (assign_sheet_names names).Nodup ∧
      ∀ s ∈ assign_sheet_names names, s.length ≤ 31) := by
  refine ⟨fun s hs => assign_names_go_wellformed names [] s hs, fun raw => ?_, fun hnd => ?_⟩
  · simp [assign_sheet_names, assign_names_go, assign_step, lookupCount]
  · have he := assign_names_go_of_fresh names [] hnd (fun nm _ => rfl)
    rw [assign_sheet_names]
    refine ⟨he, ?_, ?_⟩
    · rw [he]
      exact hnd
    · intro s hs
      rw [he] at hs
      obtain ⟨raw, -, rfl⟩ := List.mem_map.1 hs
      exact clean_sheet_name_length_le raw

/-- Witness for the sheet-name guarantees on a concrete collision-free pair of
store names. -/
theorem sheet_names_wellformed_witness :
    assign_sheet_names ["东城店".toList, "西城店".toList] =
      ["东城店".toList, "西城店".toList].map clean_sheet_name ∧
    (assign_sheet_names ["东城店".toList, "西城店".toList]).Nodup ∧
    ∀ s ∈ assign_sheet_names ["东城店".toList, "西城店".toList], s.length ≤ 31 :=
  (sheet_names_wellformed ["东城店".toList, "西城店".toList]).2.2 (by decide)

set_option maxRecDepth 8000 in
/-- C5 counterexample: for the display-name sequence `["B_2", "B", "B"]` the
assigned sheet names are `["B_2", "B", "B_2"]` — not unique, because the
suffixed name produced for the second "B" collides with the first store's
cleaned name; and for one hundred stores that share a 29-character name the
hundredth assigned name is 32 characters long. -/
theorem sheet_names_uniqueness_counterexample :
    ¬ (assign_sheet_names ["B_2".toList, "B".toList, "B".toList]).Nodup ∧
    ∃ s ∈ assign_sheet_names (List.replicate 100 (List.replicate 29 'A')), 31 < s.length :=
  ⟨by decide, by decide⟩
